import Mathlib

/-!
Shallow embedding of `food_delivery_system.py` (class `FoodDeliverySystem`).

Modelling decisions:
* Python dicts are insertion-ordered association lists `List (String × α)`;
  `dlookup`, `dset` and `dupdate` mirror `d[k]`, `d[k] = v` and in-place
  mutation of `d[k]`'s fields.
* Monetary values are exact rationals, `round(x, 2)` is `round2`.
* `datetime.datetime.now()` is an explicit `now : ℕ` parameter (abstract
  minutes); iso-formatting is dropped.
* `random.choice(available)` is an explicit index parameter taken modulo the
  list length; `random.randint(15, 45)` is `15 + dur % 31` for an explicit
  parameter `dur`, which ranges over exactly the interval 15..45.
* `save_data()` only increments a persistence-write counter `saves`; file
  content plays no role in the claims.
-/

/-- Lookup `d[k]` in an insertion-ordered dict: first entry with the key. -/
def dlookup {α : Type} : List (String × α) → String → Option α
  | [], _ => none
  | (k', v) :: t, k => if k' = k then some v else dlookup t k

/-- Assignment `d[k] = v`: replace the first entry with the key in place,
append at the end when the key is new (Python dict semantics). -/
def dset {α : Type} : List (String × α) → String → α → List (String × α)
  | [], k, v => [(k, v)]
  | (k', v') :: t, k, v => if k' = k then (k, v) :: t else (k', v') :: dset t k v

/-- In-place mutation of the record stored at `d[k]`; no-op if the key is
absent (Python would raise `KeyError`, which no reachable call does). -/
def dupdate {α : Type} : List (String × α) → String → (α → α) → List (String × α)
  | [], _, _ => []
  | (k', v) :: t, k, f => if k' = k then (k, f v) :: t else (k', v) :: dupdate t k f

theorem dlookup_dset_self {α : Type} (d : List (String × α)) (k : String) (v : α) :
    dlookup (dset d k v) k = some v := by
  induction d with
  | nil => simp [dset, dlookup]
  | cons p t ih =>
    obtain ⟨k', v'⟩ := p
    by_cases h : k' = k <;> simp [dset, dlookup, h, ih]

theorem dlookup_dset_ne {α : Type} (d : List (String × α)) (k k' : String) (v : α)
    (h : k' ≠ k) : dlookup (dset d k v) k' = dlookup d k' := by
  induction d with
  | nil => simp [dset, dlookup, Ne.symm h]
  | cons p t ih =>
    obtain ⟨k₀, v₀⟩ := p
    by_cases hk : k₀ = k
    · subst hk
      simp [dset, dlookup, Ne.symm h]
    · simp [dset, dlookup, hk, ih]

theorem dlookup_dupdate_self {α : Type} (d : List (String × α)) (k : String)
    (f : α → α) (v : α) (h : dlookup d k = some v) :
    dlookup (dupdate d k f) k = some (f v) := by
  induction d with
  | nil => simp [dlookup] at h
  | cons p t ih =>
    obtain ⟨k₀, v₀⟩ := p
    by_cases hk : k₀ = k
    · subst hk
      simp [dlookup] at h
      simp [dupdate, dlookup, h]
    · simp [dlookup, hk] at h
      simp [dupdate, dlookup, hk, ih h]

theorem dlookup_dupdate_ne {α : Type} (d : List (String × α)) (k k' : String)
    (f : α → α) (h : k' ≠ k) : dlookup (dupdate d k f) k' = dlookup d k' := by
  induction d with
  | nil => simp [dupdate]
  | cons p t ih =>
    obtain ⟨k₀, v₀⟩ := p
    by_cases hk : k₀ = k
    · subst hk
      simp [dupdate, dlookup, Ne.symm h]
    · simp [dupdate, dlookup, hk, ih]

theorem mem_dset {α : Type} (d : List (String × α)) (k : String) (v : α)
    (p : String × α) (hp : p ∈ dset d k v) : p = (k, v) ∨ p ∈ d := by
  induction d with
  | nil => simpa [dset] using hp
  | cons q t ih =>
    obtain ⟨k₀, v₀⟩ := q
    by_cases hk : k₀ = k
    · simp [dset, hk] at hp
      rcases hp with h | h
      · exact Or.inl (by simp [h])
      · exact Or.inr (by simp [h])
    · simp [dset, hk] at hp
      rcases hp with h | h
      · exact Or.inr (by simp [h])
      · rcases ih h with h' | h'
        · exact Or.inl h'
        · exact Or.inr (by simp [h'])

theorem mem_dupdate {α : Type} (d : List (String × α)) (k : String) (f : α → α)
    (p : String × α) (hp : p ∈ dupdate d k f) :
    (∃ v, p = (k, f v) ∧ (k, v) ∈ d) ∨ p ∈ d := by
  induction d with
  | nil => simp [dupdate] at hp
  | cons q t ih =>
    obtain ⟨k₀, v₀⟩ := q
    by_cases hk : k₀ = k
    · subst hk
      simp [dupdate] at hp
      rcases hp with h | h
      · exact Or.inl ⟨v₀, by simp [h]⟩
      · exact Or.inr (by simp [h])
    · simp [dupdate, hk] at hp
      rcases hp with h | h
      · exact Or.inr (by simp [h])
      · rcases ih h with ⟨v, hv, hmem⟩ | h'
        · exact Or.inl ⟨v, hv, by simp [hmem]⟩
        · exact Or.inr (by simp [h'])

theorem dlookup_isSome_of_mem {α : Type} (d : List (String × α)) (k : String) (v : α)
    (h : (k, v) ∈ d) : ∃ v', dlookup d k = some v' := by
  induction d with
  | nil => simp at h
  | cons q t ih =>
    obtain ⟨k₀, v₀⟩ := q
    by_cases hk : k₀ = k
    · exact ⟨v₀, by simp [dlookup, hk]⟩
    · simp at h
      rcases h with h | h
      · exact absurd h.1.symm hk
      · simpa [dlookup, hk] using ih h

/-- A menu item (`add_menu_item` record): name, price, description, category,
availability flag. -/
structure MenuItem where
  name : String
  price : ℚ
  description : String
  category : String
  available : Bool
deriving Repr, DecidableEq

/-- A restaurant's menu: item-id → MenuItem, insertion-ordered. -/
abbrev Menu := List (String × MenuItem)

/-- A restaurant record (`add_restaurant`). -/
structure Restaurant where
  name : String
  cuisine : String
  location : String
  menu : Menu
  rating : ℚ
  total_orders : ℕ
deriving Repr, DecidableEq

/-- A customer record (`register_customer`). -/
structure Customer where
  name : String
  email : String
  phone : String
  address : String
  order_history : List String
deriving Repr, DecidableEq

/-- A delivery agent record (`add_delivery_agent`). -/
structure DeliveryAgent where
  name : String
  phone : String
  vehicle_type : String
  status : String
  current_order : Option String
  total_deliveries : ℕ
deriving Repr, DecidableEq

/-- One order line item: the id plus the captured name/price snapshot and the
requested quantity (a Python int, so possibly non-positive). -/
structure OrderItem where
  item_id : String
  name : String
  price : ℚ
  quantity : ℤ
deriving Repr, DecidableEq

/-- An order record (`place_order`). -/
structure Order where
  order_id : String
  customer_id : String
  restaurant_id : String
  items : List OrderItem
  total_price : ℚ
  status : String
  order_time : ℕ
  delivery_address : String
  delivery_agent : Option String
  estimated_delivery : Option ℕ
deriving Repr, DecidableEq

/-- The whole in-memory state of a `FoodDeliverySystem` instance.
`saves` counts the `save_data()` calls (full-file persistence writes). -/
structure FoodDeliverySystem where
  restaurants : List (String × Restaurant)
  customers : List (String × Customer)
  orders : List (String × Order)
  delivery_agents : List (String × DeliveryAgent)
  saves : ℕ
deriving Repr, DecidableEq

/-- The state of a fresh instance with no data file (`load_data` hits
`FileNotFoundError` and keeps everything empty). -/
def initState : FoodDeliverySystem := ⟨[], [], [], [], 0⟩

/-- `save_data()`: performs one persistence write; in-memory data unchanged. -/
def save (st : FoodDeliverySystem) : FoodDeliverySystem :=
  { st with saves := st.saves + 1 }

/-- `round(x, 2)` on exact rationals: round to the nearest multiple of 1/100. -/
def round2 (q : ℚ) : ℚ := ((round (q * 100) : ℤ) : ℚ) / 100

/-- `add_restaurant`: allocate `rest_<n+1>` from the current dict size and
store the record; `menu or {}` is the explicit `menu` argument here. -/
def add_restaurant (st : FoodDeliverySystem) (name cuisine location : String)
    (menu : Menu) : FoodDeliverySystem :=
  let restaurant_id := "rest_" ++ toString (st.restaurants.length + 1)
  save { st with restaurants :=
                   dset st.restaurants restaurant_id ⟨name, cuisine, location, menu, 0, 0⟩ }

/-- `add_menu_item`: append an available item keyed `item_<menu size + 1>`;
unknown restaurant id is a logged no-op. -/
def add_menu_item (st : FoodDeliverySystem) (restaurant_id item_name : String)
    (price : ℚ) (description category : String) : FoodDeliverySystem :=
  match dlookup st.restaurants restaurant_id with
  | none => st
  | some r =>
    let item_id := "item_" ++ toString (r.menu.length + 1)
    save { st with restaurants :=
                     dset st.restaurants restaurant_id
                       { r with menu :=
                                  dset r.menu item_id
                                    ⟨item_name, price, description, category, true⟩ } }

/-- `register_customer`: always succeeds, returns the new id. -/
def register_customer (st : FoodDeliverySystem) (name email phone address : String) :
    String × FoodDeliverySystem :=
  let customer_id := "cust_" ++ toString (st.customers.length + 1)
  (customer_id,
   save { st with customers := dset st.customers customer_id ⟨name, email, phone, address, []⟩ })

/-- `add_delivery_agent`: always succeeds; initial status `"available"`,
no current order, zero deliveries. -/
def add_delivery_agent (st : FoodDeliverySystem) (name phone vehicle_type : String) :
    FoodDeliverySystem :=
  let agent_id := "agent_" ++ toString (st.delivery_agents.length + 1)
  save { st with delivery_agents :=
                   dset st.delivery_agents agent_id
                     ⟨name, phone, vehicle_type, "available", none, 0⟩ }

/-- The item-scanning loop of `place_order`: walk the requested
`(item_id, quantity)` pairs, appending each available menu item as a captured
line item and accumulating `price * quantity`; absent or unavailable items
are skipped (logged only). -/
def collectStep (menu : Menu) (acc : List OrderItem × ℚ) (iq : String × ℤ) :
    List OrderItem × ℚ :=
  match dlookup menu iq.1 with
  | some it =>
    if it.available then
      (acc.1 ++ [⟨iq.1, it.name, it.price, iq.2⟩], acc.2 + it.price * (iq.2 : ℚ))
    else acc
  | none => acc

def collectItems (menu : Menu) (items : List (String × ℤ)) : List OrderItem × ℚ :=
  items.foldl (collectStep menu) ([], 0)

/-- The line items that `place_order`'s loop accepts: requested pairs whose
item id is on the menu and marked available, with name/price captured. -/
def acceptedItems (menu : Menu) (items : List (String × ℤ)) : List OrderItem :=
  items.filterMap (fun iq =>
    match dlookup menu iq.1 with
    | some it => if it.available then some ⟨iq.1, it.name, it.price, iq.2⟩ else none
    | none => none)

/-- Sum of captured line-item price × quantity. -/
def sumItems (l : List OrderItem) : ℚ :=
  (l.map (fun li => li.price * (li.quantity : ℚ))).sum

/-- The fixed delivery fee, 2.99 currency units. -/
def delivery_fee : ℚ := 299 / 100

/-- `place_order`: validate customer and restaurant, filter the requested
items, and on at least one accepted item create the order, append to the
customer's history, bump the restaurant's counter and persist. Returns the
new order id, or `none` on failure. -/
def place_order (st : FoodDeliverySystem) (customer_id restaurant_id : String)
    (items : List (String × ℤ)) (delivery_address : Option String) (now : ℕ) :
    Option String × FoodDeliverySystem :=
  match dlookup st.customers customer_id with
  | none => (none, st)
  | some cust =>
    match dlookup st.restaurants restaurant_id with
    | none => (none, st)
    | some rest =>
      let order_id := "order_" ++ toString (st.orders.length + 1)
      let scanned := collectItems rest.menu items
      if scanned.1.isEmpty then (none, st)
      else
        let order : Order :=
          { order_id := order_id
            customer_id := customer_id
            restaurant_id := restaurant_id
            items := scanned.1
            total_price := round2 (scanned.2 + delivery_fee)
            status := "placed"
            order_time := now
            delivery_address := delivery_address.getD cust.address
            delivery_agent := none
            estimated_delivery := none }
        (some order_id,
         save { st with
                orders := dset st.orders order_id order
                customers := dset st.customers customer_id
                  { cust with order_history := cust.order_history ++ [order_id] }
                restaurants := dset st.restaurants restaurant_id
                  { rest with total_orders := rest.total_orders + 1 } })

/-- The `available_agents` list comprehension of `assign_delivery_agent`. -/
def availableAgents (st : FoodDeliverySystem) : List DeliveryAgent :=
  (st.delivery_agents.map Prod.snd).filter (fun a => a.status == "available")

/-- `random.choice(available_agents)` with the random draw made explicit as
an index taken modulo the list length. -/
def chosenAgent (st : FoodDeliverySystem) (choice : ℕ) : DeliveryAgent :=
  (availableAgents st).getD (choice % (availableAgents st).length)
    ⟨"", "", "", "available", none, 0⟩

/-- The id-recovery scan `[k for k, v in self.delivery_agents.items() if v == agent][0]`:
the first key whose record equals the chosen record by value. -/
def recoveredAgentId (st : FoodDeliverySystem) (agent : DeliveryAgent) : String :=
  ((st.delivery_agents.filter (fun kv => kv.2 == agent)).headD ("", agent)).1

/-- `assign_delivery_agent`: on a known order with at least one available
agent, pick a random available agent, recover its key by value-equality,
mark the order assigned to it, mark the agent busy on this order, and set
`estimated_delivery = now + randint(15, 45)` (the draw is `15 + dur % 31`).
Unknown order or no available agent is a logged no-op. -/
def assign_delivery_agent (st : FoodDeliverySystem) (order_id : String)
    (choice dur now : ℕ) : FoodDeliverySystem :=
  match dlookup st.orders order_id with
  | none => st
  | some ord =>
    if (availableAgents st).isEmpty then st
    else
      let agent_id := recoveredAgentId st (chosenAgent st choice)
      save { st with
             orders := dset st.orders order_id
               { ord with delivery_agent := some agent_id
                          status := "assigned"
                          estimated_delivery := some (now + (15 + dur % 31)) }
             delivery_agents := dupdate st.delivery_agents agent_id
               (fun a => { a with status := "busy", current_order := some order_id }) }

/-- `update_order_status`: on a known order, overwrite the status with the
given string unconditionally and persist; the value `"delivered"` additionally
frees the assigned agent (if any) and bumps its delivery count. The
`if agent_id:` truthiness test is `some aid` with `aid ≠ ""`. -/
def update_order_status (st : FoodDeliverySystem) (order_id status : String) :
    FoodDeliverySystem :=
  match dlookup st.orders order_id with
  | none => st
  | some ord =>
    let st1 := { st with orders := dset st.orders order_id { ord with status := status } }
    if status = "delivered" then
      match ord.delivery_agent with
      | some agent_id =>
        if agent_id = "" then save st1
        else
          save { st1 with delivery_agents :=
                            dupdate st1.delivery_agents agent_id
                              (fun a => { a with status := "available", current_order := none,
                                                 total_deliveries := a.total_deliveries + 1 }) }
      | none => save st1
    else save st1

/-- The projection returned by `get_order_status`. -/
structure OrderStatusView where
  order_id : String
  status : String
  order_time : ℕ
  estimated_delivery : Option ℕ
  total_price : ℚ
deriving Repr, DecidableEq

/-- `get_order_status`: a read-only projection of a known order, `none`
otherwise. The state component records that the method does not mutate. -/
def get_order_status (st : FoodDeliverySystem) (order_id : String) :
    Option OrderStatusView × FoodDeliverySystem :=
  match dlookup st.orders order_id with
  | some o => (some ⟨order_id, o.status, o.order_time, o.estimated_delivery, o.total_price⟩, st)
  | none => (none, st)

/-- The report returned by `generate_report`. -/
structure Report where
  total_orders : ℕ
  total_customers : ℕ
  total_restaurants : ℕ
  total_delivery_agents : ℕ
  order_status_breakdown : String → ℕ
  total_revenue : ℚ
  generated_at : ℕ

/-- `generate_report`: entity counts, per-status order counts, and revenue
summed over the orders whose status is exactly `"delivered"`, rounded. -/
def generate_report (st : FoodDeliverySystem) (now : ℕ) :
    Report × FoodDeliverySystem :=
  let vals := st.orders.map Prod.snd
  ({ total_orders := st.orders.length
     total_customers := st.customers.length
     total_restaurants := st.restaurants.length
     total_delivery_agents := st.delivery_agents.length
     order_status_breakdown := fun s => (vals.filter (fun o => o.status == s)).length
     total_revenue := round2 (vals.foldl
       (fun acc o => if o.status = "delivered" then acc + o.total_price else acc) 0)
     generated_at := now }, st)

/-- Does `startsWith n h` hold, i.e. is `n` an initial segment of `h`? -/
def startsWith : List Char → List Char → Bool
  | [], _ => true
  | _ :: _, [] => false
  | a :: as, b :: bs => a == b && startsWith as bs

/-- Is `n` a contiguous sub-list of `h` (Python `n in h` on strings)? -/
def hasSub : List Char → List Char → Bool
  | n, [] => n.isEmpty
  | n, h :: t => startsWith n (h :: t) || hasSub n t

/-- Case-insensitive substring test `needle.lower() in hay.lower()`. -/
def containsCI (hay needle : String) : Bool :=
  hasSub needle.toLower.data hay.toLower.data

/-- Python truthiness of an optional string argument: present and non-empty. -/
def strTruthy : Option String → Bool
  | none => false
  | some s => !s.isEmpty

/-- The projection returned by `search_restaurants` for each match. -/
structure RestaurantView where
  id : String
  name : String
  cuisine : String
  location : String
  rating : ℚ
deriving Repr, DecidableEq

/-- The `if` condition of `search_restaurants`, verbatim from the source:
`(cuisine and cuisine.lower() in r.cuisine.lower()) or (location and
location.lower() in r.location.lower()) or (not cuisine and not location)`. -/
def searchCond (cuisine location : Option String) (r : Restaurant) : Bool :=
  (strTruthy cuisine && containsCI r.cuisine (cuisine.getD "")) ||
  (strTruthy location && containsCI r.location (location.getD "")) ||
  (!strTruthy cuisine && !strTruthy location)

/-- The per-restaurant projection appended to `results`. -/
def restView (p : String × Restaurant) : RestaurantView :=
  ⟨p.1, p.2.name, p.2.cuisine, p.2.location, p.2.rating⟩

/-- `search_restaurants`: scan the restaurant dict in order, appending a
projection of every record passing `searchCond`. Read-only. -/
def search_restaurants (st : FoodDeliverySystem) (cuisine location : Option String) :
    List RestaurantView × FoodDeliverySystem :=
  (st.restaurants.foldl
    (fun results p => if searchCond cuisine location p.2 then results ++ [restView p] else results)
    [], st)

/-- One public method call on a `FoodDeliverySystem` instance, with every
random draw and clock reading made an explicit argument. -/
inductive Op where
  | addRestaurant (name cuisine location : String) (menu : Menu)
  | addMenuItem (restaurant_id item_name : String) (price : ℚ) (description category : String)
  | registerCustomer (name email phone address : String)
  | addAgent (name phone vehicle_type : String)
  | placeOrder (customer_id restaurant_id : String) (items : List (String × ℤ))
      (delivery_address : Option String) (now : ℕ)
  | assignAgent (order_id : String) (choice dur now : ℕ)
  | updateStatus (order_id status : String)
  | getStatus (order_id : String)
  | report (now : ℕ)
  | search (cuisine location : Option String)

/-- Execute one method call, discarding the returned value. -/
def step (st : FoodDeliverySystem) : Op → FoodDeliverySystem
  | .addRestaurant n c l m => add_restaurant st n c l m
  | .addMenuItem r n p d c => add_menu_item st r n p d c
  | .registerCustomer n e p a => (register_customer st n e p a).2
  | .addAgent n p v => add_delivery_agent st n p v
  | .placeOrder c r i a now => (place_order st c r i a now).2
  | .assignAgent o c d n => assign_delivery_agent st o c d n
  | .updateStatus o s => update_order_status st o s
  | .getStatus o => (get_order_status st o).2
  | .report n => (generate_report st n).2
  | .search c l => (search_restaurants st c l).2

/-- Run a whole call sequence against a fresh instance: the reachable states
are exactly the results of `run`. -/
def run (ops : List Op) : FoodDeliverySystem := ops.foldl step initState

/-- Folding a guarded append produces the projections of the filtered list. -/
theorem foldl_guard_append {α β : Type} (p : α → Bool) (f : α → β) (l : List α)
    (acc : List β) :
    l.foldl (fun r x => if p x then r ++ [f x] else r) acc = acc ++ (l.filter p).map f := by
  induction l generalizing acc with
  | nil => simp
  | cons a t ih => by_cases h : p a <;> simp [h, ih]

/-- Folding a guarded sum produces the sum over the filtered list. -/
theorem foldl_guard_add {α : Type} (p : α → Prop) [DecidablePred p] (f : α → ℚ)
    (l : List α) (a : ℚ) :
    l.foldl (fun acc x => if p x then acc + f x else acc) a
      = a + ((l.filter (fun x => decide (p x))).map f).sum := by
  induction l generalizing a with
  | nil => simp
  | cons x t ih => by_cases h : p x <;> simp [h, ih, add_assoc]

/-- C10: the query operations `get_order_status`, `generate_report` and
`search_restaurants` are read-only: for every state and every argument
(including unknown order ids) the entire state — all four collections and
the persistence-write counter — is returned unchanged. -/
theorem queries_read_only (st : FoodDeliverySystem) (order_id : String) (now : ℕ)
    (cuisine location : Option String) :
    (get_order_status st order_id).2 = st ∧ (generate_report st now).2 = st ∧
    (search_restaurants st cuisine location).2 = st := by
  refine ⟨?_, rfl, rfl⟩
  unfold get_order_status
  cases dlookup st.orders order_id <;> rfl

/-- C8: `generate_report`'s `total_revenue` is the sum of `total_price` over
exactly the orders whose status string is exactly `"delivered"`, rounded to
2 decimal places; orders in any other status contribute nothing. -/
theorem report_revenue_delivered_sum (st : FoodDeliverySystem) (now : ℕ) :
    (generate_report st now).1.total_revenue =
      round2 ((((st.orders.map Prod.snd).filter
        (fun o => decide (o.status = "delivered"))).map Order.total_price).sum) := by
  have h := foldl_guard_add (fun o : Order => o.status = "delivered") Order.total_price
    (st.orders.map Prod.snd) 0
  simp only [generate_report]
  rw [h, zero_add]

/-- C9: `search_restaurants` returns exactly the projections of the
restaurants satisfying the inclusive-OR rule: cuisine given (truthy) and a
case-insensitive substring of the restaurant's cuisine, OR location given and
a case-insensitive substring of the restaurant's location, OR neither
argument given — so with both supplied, matching either one suffices. -/
theorem search_restaurants_match_rule (st : FoodDeliverySystem)
    (cuisine location : Option String) :
    (search_restaurants st cuisine location).1 =
      (st.restaurants.filter (fun p => searchCond cuisine location p.2)).map restView
    ∧ ∀ r : Restaurant, searchCond cuisine location r = true ↔
        ((strTruthy cuisine = true ∧ containsCI r.cuisine (cuisine.getD "") = true) ∨
         (strTruthy location = true ∧ containsCI r.location (location.getD "") = true) ∨
         (strTruthy cuisine = false ∧ strTruthy location = false)) := by
  constructor
  · simpa [search_restaurants] using
      foldl_guard_append (fun p => searchCond cuisine location p.2) restView st.restaurants []
  · intro r
    simp [searchCond, Bool.and_eq_true, Bool.or_eq_true, Bool.not_eq_true', or_assoc]

theorem collect_go (menu : Menu) (items : List (String × ℤ)) :
    ∀ acc : List OrderItem × ℚ,
      items.foldl (collectStep menu) acc
        = (acc.1 ++ acceptedItems menu items, acc.2 + sumItems (acceptedItems menu items)) := by
  induction items with
  | nil => intro acc; simp [acceptedItems, sumItems]
  | cons iq t ih =>
    intro acc
    cases h : dlookup menu iq.1 with
    | none =>
      simp [collectStep, h, acceptedItems, List.filterMap_cons, ih]
    | some it =>
      by_cases ha : it.available
      · simp only [List.foldl_cons, collectStep, h, ha, if_pos, ih, acceptedItems,
          List.filterMap_cons]
        simp [sumItems, add_assoc, List.append_assoc]
      · simp [collectStep, h, ha, acceptedItems, List.filterMap_cons, ih]

/-- The one-pass loop of `place_order` computes exactly the accepted line
items and the sum of their captured price × quantity. -/
theorem collectItems_eq (menu : Menu) (items : List (String × ℤ)) :
    collectItems menu items
      = (acceptedItems menu items, sumItems (acceptedItems menu items)) := by
  simpa [collectItems] using collect_go menu items ([], 0)

/-- C1: on a successful `place_order` (known customer, known restaurant, at
least one accepted item) the created order holds exactly the accepted line
items, and its `total_price` is the sum of captured price × quantity over
those items plus the fixed 2.99 delivery fee, rounded to 2 decimal places. -/
theorem place_order_total_price (st : FoodDeliverySystem)
    (customer_id restaurant_id : String) (items : List (String × ℤ))
    (delivery_address : Option String) (now : ℕ) (cust : Customer) (rest : Restaurant)
    (hc : dlookup st.customers customer_id = some cust)
    (hr : dlookup st.restaurants restaurant_id = some rest)
    (hne : acceptedItems rest.menu items ≠ []) :
    ∃ st' ord,
      place_order st customer_id restaurant_id items delivery_address now
        = (some ("order_" ++ toString (st.orders.length + 1)), st')
      ∧ dlookup st'.orders ("order_" ++ toString (st.orders.length + 1)) = some ord
      ∧ ord.items = acceptedItems rest.menu items
      ∧ ord.total_price = round2 (sumItems (acceptedItems rest.menu items) + delivery_fee) := by
  have hcoll := collectItems_eq rest.menu items
  simp only [place_order, hc, hr, hcoll]
  rw [if_neg (by simpa [List.isEmpty_iff] using hne)]
  exact ⟨_, _, rfl, dlookup_dset_self _ _ _, rfl, rfl⟩

/-- The exact failure condition of `place_order`: unknown customer, unknown
restaurant, or no requested pair surviving the availability filter. -/
def orderFails (st : FoodDeliverySystem) (customer_id restaurant_id : String)
    (items : List (String × ℤ)) : Prop :=
  dlookup st.customers customer_id = none ∨
  dlookup st.restaurants restaurant_id = none ∨
  ∃ r, dlookup st.restaurants restaurant_id = some r ∧ acceptedItems r.menu items = []

/-- C2: `place_order` returns no order id exactly when the customer is
unknown, the restaurant is unknown, or no requested pair survives filtering;
and in every such failing case the entire state — orders, customer histories,
restaurant counters and the persistence counter — is unchanged. -/
theorem place_order_failure_no_mutation (st : FoodDeliverySystem)
    (customer_id restaurant_id : String) (items : List (String × ℤ))
    (delivery_address : Option String) (now : ℕ) :
    ((place_order st customer_id restaurant_id items delivery_address now).1 = none
      ↔ orderFails st customer_id restaurant_id items)
    ∧ ((place_order st customer_id restaurant_id items delivery_address now).1 = none
      → (place_order st customer_id restaurant_id items delivery_address now).2 = st) := by
  cases hc : dlookup st.customers customer_id with
  | none =>
    constructor
    · simp [place_order, hc, orderFails]
    · simp [place_order, hc]
  | some cust =>
    cases hr : dlookup st.restaurants restaurant_id with
    | none =>
      constructor
      · simp [place_order, hc, hr, orderFails]
      · simp [place_order, hc, hr]
    | some rest =>
      have hcoll := collectItems_eq rest.menu items
      by_cases hne : acceptedItems rest.menu items = []
      · constructor
        · simp only [place_order, hc, hr, hcoll]
          rw [if_pos (by simpa [List.isEmpty_iff] using hne)]
          simp [orderFails, hr, hne]
        · intro _
          simp only [place_order, hc, hr, hcoll]
          rw [if_pos (by simpa [List.isEmpty_iff] using hne)]
      · constructor
        · simp only [place_order, hc, hr, hcoll]
          rw [if_neg (by simpa [List.isEmpty_iff] using hne)]
          simp [orderFails, hr, hne, hc]
        · simp only [place_order, hc, hr, hcoll]
          rw [if_neg (by simpa [List.isEmpty_iff] using hne)]
          intro h
          exact absurd h (by simp)

/-- C4: for a known order and any status string whatsoever,
`update_order_status` overwrites the stored status with that string
unconditionally (no validation, no dependence on the previous status), and
for every string other than `"delivered"` the whole effect is exactly that
overwrite plus one persistence write — no agent, customer or restaurant
record is touched. -/
theorem update_order_status_unconditional (st : FoodDeliverySystem)
    (order_id status : String) (ord : Order)
    (ho : dlookup st.orders order_id = some ord) :
    (update_order_status st order_id status).orders
      = dset st.orders order_id { ord with status := status }
    ∧ (status ≠ "delivered" →
        update_order_status st order_id status
          = save { st with orders := dset st.orders order_id { ord with status := status } }) := by
  constructor
  · simp only [update_order_status, ho]
    by_cases hd : status = "delivered"
    · rw [if_pos hd]
      cases ord.delivery_agent with
      | none => rfl
      | some aid => by_cases ha : aid = "" <;> simp [ha, save]
    · rw [if_neg hd]
      rfl
  · intro hd
    simp only [update_order_status, ho]
    rw [if_neg hd]

/-- C7: marking a known order `"delivered"` when it has an assigned agent
that exists in the registry frees exactly that agent — status back to
`"available"`, `current_order` cleared, `total_deliveries` up by one — and
leaves the record of every other agent id unchanged. -/
theorem delivered_resets_agent (st : FoodDeliverySystem) (order_id : String)
    (ord : Order) (agent_id : String) (ag : DeliveryAgent)
    (ho : dlookup st.orders order_id = some ord)
    (ha : ord.delivery_agent = some agent_id)
    (hne : agent_id ≠ "")
    (hl : dlookup st.delivery_agents agent_id = some ag) :
    dlookup (update_order_status st order_id "delivered").delivery_agents agent_id
      = some { ag with status := "available", current_order := none,
                       total_deliveries := ag.total_deliveries + 1 }
    ∧ ∀ k, k ≠ agent_id →
        dlookup (update_order_status st order_id "delivered").delivery_agents k
          = dlookup st.delivery_agents k := by
  have hagents : (update_order_status st order_id "delivered").delivery_agents
      = dupdate st.delivery_agents agent_id
          (fun a => { a with status := "available", current_order := none,
                             total_deliveries := a.total_deliveries + 1 }) := by
    simp only [update_order_status, ho, ha]
    rw [if_pos trivial, if_neg hne]
    rfl
  constructor
  · rw [hagents]
    exact dlookup_dupdate_self _ _ _ _ hl
  · intro k hk
    rw [hagents]
    exact dlookup_dupdate_ne _ _ _ _ hk

theorem chosenAgent_mem (st : FoodDeliverySystem) (choice : ℕ)
    (h : availableAgents st ≠ []) : chosenAgent st choice ∈ availableAgents st := by
  have hlen : 0 < (availableAgents st).length := List.length_pos.2 h
  have hidx : choice % (availableAgents st).length < (availableAgents st).length :=
    Nat.mod_lt _ hlen
  unfold chosenAgent
  rw [List.getD_eq_getElem _ _ hidx]
  exact List.getElem_mem hidx

/-- The key recovered by the value-equality scan is a key of the agent dict,
whenever the scanned-for record is one of the dict's values. -/
theorem recoveredAgentId_lookup (st : FoodDeliverySystem) (agent : DeliveryAgent)
    (h : agent ∈ st.delivery_agents.map Prod.snd) :
    ∃ v, dlookup st.delivery_agents (recoveredAgentId st agent) = some v := by
  obtain ⟨p, hp, hpe⟩ := List.mem_map.1 h
  have hf : p ∈ st.delivery_agents.filter (fun kv => kv.2 == agent) :=
    List.mem_filter.2 ⟨hp, by simp [hpe]⟩
  have hne : st.delivery_agents.filter (fun kv => kv.2 == agent) ≠ [] :=
    List.ne_nil_of_mem hf
  have hmem : (st.delivery_agents.filter (fun kv => kv.2 == agent)).headD ("", agent)
      ∈ st.delivery_agents.filter (fun kv => kv.2 == agent) := by
    cases hcase : st.delivery_agents.filter (fun kv => kv.2 == agent) with
    | nil => exact absurd hcase hne
    | cons a t => simp
  have hmem2 := List.mem_of_mem_filter hmem
  exact dlookup_isSome_of_mem _ _ _ hmem2

/-- On a known order with at least one available agent,
`assign_delivery_agent` is exactly: rewrite the order as assigned to the
recovered agent id with the estimated time, mark that agent busy on this
order, persist. -/
theorem assign_success_eq (st : FoodDeliverySystem) (order_id : String)
    (choice dur now : ℕ) (ord : Order)
    (ho : dlookup st.orders order_id = some ord)
    (ha : availableAgents st ≠ []) :
    assign_delivery_agent st order_id choice dur now =
      save { st with
             orders := dset st.orders order_id
               { ord with delivery_agent := some (recoveredAgentId st (chosenAgent st choice))
                          status := "assigned"
                          estimated_delivery := some (now + (15 + dur % 31)) }
             delivery_agents := dupdate st.delivery_agents
               (recoveredAgentId st (chosenAgent st choice))
               (fun a => { a with status := "busy", current_order := some order_id }) } := by
  simp only [assign_delivery_agent, ho]
  rw [if_neg (by simpa [List.isEmpty_iff] using ha)]

/-- C5: whenever `assign_delivery_agent` is called on a known order with at
least one available agent, then for every random choice and duration draw:
the order is assigned to the recovered id of the chosen agent, its status
becomes `"assigned"`, that agent becomes `"busy"` with `current_order` equal
to the order id, and the estimated delivery is the call time plus a duration
between 15 and 45 minutes inclusive. -/
theorem assign_agent_success_effects (st : FoodDeliverySystem) (order_id : String)
    (choice dur now : ℕ) (ord : Order)
    (ho : dlookup st.orders order_id = some ord)
    (ha : availableAgents st ≠ []) :
    ∃ ord',
      dlookup (assign_delivery_agent st order_id choice dur now).orders order_id = some ord'
      ∧ ord'.delivery_agent = some (recoveredAgentId st (chosenAgent st choice))
      ∧ ord'.status = "assigned"
      ∧ ord'.estimated_delivery = some (now + (15 + dur % 31))
      ∧ 15 ≤ 15 + dur % 31 ∧ 15 + dur % 31 ≤ 45
      ∧ ∃ ag',
          dlookup (assign_delivery_agent st order_id choice dur now).delivery_agents
            (recoveredAgentId st (chosenAgent st choice)) = some ag'
          ∧ ag'.status = "busy" ∧ ag'.current_order = some order_id := by
  have heq := assign_success_eq st order_id choice dur now ord ho ha
  have hdur : dur % 31 < 31 := Nat.mod_lt _ (by norm_num)
  obtain ⟨v, hv⟩ := recoveredAgentId_lookup st (chosenAgent st choice)
    (List.mem_of_mem_filter (chosenAgent_mem st choice ha))
  refine ⟨⟨ord.order_id, ord.customer_id, ord.restaurant_id, ord.items, ord.total_price,
            "assigned", ord.order_time, ord.delivery_address,
            some (recoveredAgentId st (chosenAgent st choice)),
            some (now + (15 + dur % 31))⟩,
          ?_, rfl, rfl, rfl, by omega, by omega,
          ⟨⟨v.name, v.phone, v.vehicle_type, "busy", some order_id, v.total_deliveries⟩,
           ?_, rfl, rfl⟩⟩
  · rw [heq]
    exact dlookup_dset_self _ _ _
  · rw [heq]
    exact dlookup_dupdate_self _ _ _ _ hv

/-- The number of delivery agents currently `"busy"` on a given order id. -/
def busyWithCount (st : FoodDeliverySystem) (order_id : String) : ℕ :=
  (st.delivery_agents.filter
    (fun p => decide (p.2.status = "busy" ∧ p.2.current_order = some order_id))).length

theorem filter_length_dupdate {α : Type} (d : List (String × α)) (k : String)
    (f : α → α) (pred : String × α → Bool)
    (hf : ∀ w, pred (k, f w) = true) :
    ∀ v, (∀ p ∈ d, pred p = false) → dlookup d k = some v →
      ((dupdate d k f).filter pred).length = 1 := by
  induction d with
  | nil =>
    intro v _ hv
    simp [dlookup] at hv
  | cons q t ih =>
    obtain ⟨k₀, v₀⟩ := q
    intro v hall hv
    by_cases hk : k₀ = k
    · subst hk
      have hft : t.filter pred = [] := List.filter_eq_nil_iff.2
        (fun p hp => by simp [hall p (List.mem_cons_of_mem _ hp)])
      simp [dupdate, List.filter_cons, hf v₀, hft]
    · have hv' : dlookup t k = some v := by simpa [dlookup, hk] using hv
      have h0 : pred (k₀, v₀) = false := hall _ (List.mem_cons_self _ _)
      simp only [dupdate, if_neg hk, List.filter_cons, h0]
      simpa using ih v (fun p hp => hall p (List.mem_cons_of_mem _ hp)) hv'

/-- C6 (amended): after a successful `assign_delivery_agent(order_id)` call
in a state where no agent is currently busy on that order id, exactly one
agent is `"busy"` with `current_order` equal to the order id. (Without the
freshness condition the property fails: see the counterexample.) -/
theorem assign_agent_unique_busy (st : FoodDeliverySystem) (order_id : String)
    (choice dur now : ℕ) (ord : Order)
    (ho : dlookup st.orders order_id = some ord)
    (ha : availableAgents st ≠ [])
    (hclean : ∀ p ∈ st.delivery_agents,
      ¬(p.2.status = "busy" ∧ p.2.current_order = some order_id)) :
    busyWithCount (assign_delivery_agent st order_id choice dur now) order_id = 1 := by
  have heq := assign_success_eq st order_id choice dur now ord ho ha
  obtain ⟨v, hv⟩ := recoveredAgentId_lookup st (chosenAgent st choice)
    (List.mem_of_mem_filter (chosenAgent_mem st choice ha))
  unfold busyWithCount
  rw [heq]
  exact filter_length_dupdate _ _ _ _ (fun w => by simp) v
    (fun p hp => by simp [hclean p hp]) hv

/-- A concrete call sequence: two agents, one placed order, one successful
assignment. The order is then already assigned to `agent_1`. -/
def doubleAssignOps : List Op :=
  [Op.addAgent "Alice" "111" "bike",
   Op.addAgent "Bob" "222" "car",
   Op.registerCustomer "Carol" "c@x" "333" "5 Main St",
   Op.addRestaurant "Pasta Place" "Italian" "Downtown"
     [("item_1", ⟨"Spaghetti", 10, "plain", "Pasta", true⟩)],
   Op.placeOrder "cust_1" "rest_1" [("item_1", 1)] none 0,
   Op.assignAgent "order_1" 0 0 0]

/-- C6 (counterexample): in the reachable state after `doubleAssignOps`, a
second `assign_delivery_agent("order_1")` call succeeds (the order is known
and an agent is available), yet afterwards TWO agents are `"busy"` with
`current_order = "order_1"` — not exactly one as the claim states. The code
never checks whether an order is already assigned. -/
theorem assign_agent_double_assign_counterexample :
    (dlookup (run doubleAssignOps).orders "order_1").isSome = true
    ∧ availableAgents (run doubleAssignOps) ≠ []
    ∧ busyWithCount
        (assign_delivery_agent (run doubleAssignOps) "order_1" 0 0 0) "order_1" = 2 :=
  ⟨by decide, by decide, by decide⟩

/-- The C3 invariant for one agent record: `"busy"` iff an order is held,
`"available"` iff none is. -/
def agentOK (a : DeliveryAgent) : Prop :=
  (a.status = "busy" ↔ a.current_order ≠ none) ∧
  (a.status = "available" ↔ a.current_order = none)

/-- The C3 invariant over a whole state. -/
def AgentInv (st : FoodDeliverySystem) : Prop :=
  ∀ p ∈ st.delivery_agents, agentOK p.2

theorem agentOK_new (name phone vehicle_type : String) :
    agentOK ⟨name, phone, vehicle_type, "available", none, 0⟩ := by
  simp [agentOK]

theorem agentOK_set_busy (a : DeliveryAgent) (order_id : String) :
    agentOK { a with status := "busy", current_order := some order_id } := by
  simp [agentOK]

theorem agentOK_set_available (a : DeliveryAgent) :
    agentOK { a with status := "available", current_order := none,
                     total_deliveries := a.total_deliveries + 1 } := by
  simp [agentOK]

theorem add_restaurant_agents (st : FoodDeliverySystem) (n c l : String) (m : Menu) :
    (add_restaurant st n c l m).delivery_agents = st.delivery_agents := rfl

theorem add_menu_item_agents (st : FoodDeliverySystem) (r n : String) (p : ℚ)
    (d c : String) : (add_menu_item st r n p d c).delivery_agents = st.delivery_agents := by
  unfold add_menu_item
  cases dlookup st.restaurants r <;> rfl

theorem register_customer_agents (st : FoodDeliverySystem) (n e p a : String) :
    (register_customer st n e p a).2.delivery_agents = st.delivery_agents := rfl

theorem place_order_agents (st : FoodDeliverySystem) (c r : String)
    (i : List (String × ℤ)) (a : Option String) (n : ℕ) :
    (place_order st c r i a n).2.delivery_agents = st.delivery_agents := by
  unfold place_order
  cases dlookup st.customers c with
  | none => rfl
  | some cust =>
    cases dlookup st.restaurants r with
    | none => rfl
    | some rest =>
      by_cases h : (collectItems rest.menu i).1.isEmpty <;> simp [h, save]

theorem get_order_status_state (st : FoodDeliverySystem) (o : String) :
    (get_order_status st o).2 = st := by
  unfold get_order_status
  cases dlookup st.orders o <;> rfl

/-- `assign_delivery_agent` either leaves the agent dict alone or marks one
key busy on the given order. -/
theorem assign_agents_cases (st : FoodDeliverySystem) (o : String) (c d n : ℕ) :
    (assign_delivery_agent st o c d n).delivery_agents = st.delivery_agents ∨
    ∃ aid, (assign_delivery_agent st o c d n).delivery_agents
      = dupdate st.delivery_agents aid
          (fun a => { a with status := "busy", current_order := some o }) := by
  cases ho : dlookup st.orders o with
  | none =>
    left
    simp [assign_delivery_agent, ho]
  | some ord =>
    by_cases h : (availableAgents st).isEmpty
    · left
      simp only [assign_delivery_agent, ho]
      rw [if_pos h]
    · right
      refine ⟨recoveredAgentId st (chosenAgent st c), ?_⟩
      simp only [assign_delivery_agent, ho]
      rw [if_neg h]
      rfl

/-- `update_order_status` either leaves the agent dict alone or frees one
key. -/
theorem update_agents_cases (st : FoodDeliverySystem) (o s : String) :
    (update_order_status st o s).delivery_agents = st.delivery_agents ∨
    ∃ aid, (update_order_status st o s).delivery_agents
      = dupdate st.delivery_agents aid
          (fun a => { a with status := "available", current_order := none,
                             total_deliveries := a.total_deliveries + 1 }) := by
  cases ho : dlookup st.orders o with
  | none =>
    left
    simp [update_order_status, ho]
  | some ord =>
    by_cases hd : s = "delivered"
    · cases ha : ord.delivery_agent with
      | none =>
        left
        simp only [update_order_status, ho, ha]
        rw [if_pos hd]
        rfl
      | some aid =>
        by_cases hae : aid = ""
        · left
          simp only [update_order_status, ho, ha]
          rw [if_pos hd, if_pos hae]
          rfl
        · right
          refine ⟨aid, ?_⟩
          simp only [update_order_status, ho, ha]
          rw [if_pos hd, if_neg hae]
          rfl
    · left
      simp only [update_order_status, ho]
      rw [if_neg hd]
      rfl

theorem agentInv_dupdate_busy (st : FoodDeliverySystem) (aid o : String)
    (h : AgentInv st) :
    ∀ p ∈ dupdate st.delivery_agents aid
        (fun a => { a with status := "busy", current_order := some o }),
      agentOK p.2 := by
  intro p hp
  rcases mem_dupdate _ _ _ _ hp with ⟨v, hpe, _⟩ | hpm
  · rw [hpe]
    exact agentOK_set_busy v o
  · exact h p hpm

theorem agentInv_dupdate_available (st : FoodDeliverySystem) (aid : String)
    (h : AgentInv st) :
    ∀ p ∈ dupdate st.delivery_agents aid
        (fun a => { a with status := "available", current_order := none,
                           total_deliveries := a.total_deliveries + 1 }),
      agentOK p.2 := by
  intro p hp
  rcases mem_dupdate _ _ _ _ hp with ⟨v, hpe, _⟩ | hpm
  · rw [hpe]
    exact agentOK_set_available v
  · exact h p hpm

/-- Every single method call preserves the agent-status invariant. -/
theorem step_preserves_agentInv (st : FoodDeliverySystem) (op : Op)
    (h : AgentInv st) : AgentInv (step st op) := by
  cases op with
  | addRestaurant n c l m =>
    intro p hp
    rw [step, add_restaurant_agents] at hp
    exact h p hp
  | addMenuItem r n pr d c =>
    intro p hp
    rw [step, add_menu_item_agents] at hp
    exact h p hp
  | registerCustomer n e ph a =>
    intro p hp
    rw [step, register_customer_agents] at hp
    exact h p hp
  | addAgent n ph v =>
    intro p hp
    rw [step] at hp
    unfold add_delivery_agent at hp
    rcases mem_dset _ _ _ _ hp with hpe | hpm
    · rw [hpe]
      exact agentOK_new n ph v
    · exact h p hpm
  | placeOrder c r i a n =>
    intro p hp
    rw [step, place_order_agents] at hp
    exact h p hp
  | assignAgent o c d n =>
    rcases assign_agents_cases st o c d n with hsame | ⟨aid, hupd⟩
    · intro p hp
      rw [step, hsame] at hp
      exact h p hp
    · intro p hp
      rw [step, hupd] at hp
      exact agentInv_dupdate_busy st aid o h p hp
  | updateStatus o s =>
    rcases update_agents_cases st o s with hsame | ⟨aid, hupd⟩
    · intro p hp
      rw [step, hsame] at hp
      exact h p hp
    · intro p hp
      rw [step, hupd] at hp
      exact agentInv_dupdate_available st aid h p hp
  | getStatus o =>
    intro p hp
    rw [step, get_order_status_state] at hp
    exact h p hp
  | report n =>
    intro p hp
    exact h p hp
  | search c l =>
    intro p hp
    exact h p hp

/-- C3: in every state reachable from the empty state by any call sequence,
every delivery agent's status is `"busy"` exactly when its `current_order`
is set and `"available"` exactly when it is unset; each operation preserves
this invariant along the whole run. -/
theorem agent_busy_iff_current_order (ops : List Op) :
    ∀ p ∈ (run ops).delivery_agents,
      (p.2.status = "busy" ↔ p.2.current_order ≠ none) ∧
      (p.2.status = "available" ↔ p.2.current_order = none) := by
  suffices h : ∀ ops st, AgentInv st → AgentInv (List.foldl step st ops) by
    exact h ops initState (by intro p hp; simp [initState] at hp)
  intro ops
  induction ops with
  | nil => exact fun st h => h
  | cons op t ih => exact fun st h => ih _ (step_preserves_agentInv st op h)

/-- Concrete records and states used to instantiate the theorems above. -/
def wItem : MenuItem := ⟨"Margherita", 10, "plain", "Pizza", true⟩

def wRest : Restaurant := ⟨"R", "Italian", "Downtown", [("item_1", wItem)], 0, 0⟩

def wCust : Customer := ⟨"John", "j@x", "1", "9 Elm St", []⟩

def wAgent : DeliveryAgent := ⟨"Ann", "2", "bike", "available", none, 0⟩

def wOrder : Order := ⟨"order_1", "cust_1", "rest_1", [], 10, "placed", 0, "9 Elm St", none, none⟩

def wOrderAssigned : Order :=
  ⟨"order_1", "cust_1", "rest_1", [], 10, "assigned", 0, "9 Elm St", some "agent_1", some 20⟩

def wBusyAgent : DeliveryAgent := ⟨"Ann", "2", "bike", "busy", some "order_1", 0⟩

def wStPlace : FoodDeliverySystem := ⟨[("rest_1", wRest)], [("cust_1", wCust)], [], [], 0⟩

def wStAssign : FoodDeliverySystem := ⟨[], [], [("order_1", wOrder)], [("agent_1", wAgent)], 0⟩

def wStDeliver : FoodDeliverySystem :=
  ⟨[], [], [("order_1", wOrderAssigned)], [("agent_1", wBusyAgent)], 0⟩

/-- C1 at a concrete input: one customer, one restaurant with one available
item, ordering two of it. -/
theorem place_order_total_price_witness :
    dlookup wStPlace.customers "cust_1" = some wCust
    ∧ dlookup wStPlace.restaurants "rest_1" = some wRest
    ∧ acceptedItems wRest.menu [("item_1", 2)] ≠ []
    ∧ ∃ st' ord,
        place_order wStPlace "cust_1" "rest_1" [("item_1", 2)] none 0
          = (some ("order_" ++ toString (wStPlace.orders.length + 1)), st')
        ∧ dlookup st'.orders ("order_" ++ toString (wStPlace.orders.length + 1)) = some ord
        ∧ ord.items = acceptedItems wRest.menu [("item_1", 2)]
        ∧ ord.total_price
            = round2 (sumItems (acceptedItems wRest.menu [("item_1", 2)]) + delivery_fee) :=
  ⟨rfl, rfl, by decide,
   place_order_total_price wStPlace "cust_1" "rest_1" [("item_1", 2)] none 0 wCust wRest
     rfl rfl (by decide)⟩

/-- C2 at a concrete input: empty state, unknown customer. -/
theorem place_order_failure_no_mutation_witness :
    (place_order initState "cust_1" "rest_1" [] none 0).1 = none
    ∧ (place_order initState "cust_1" "rest_1" [] none 0).2 = initState := by
  have h := place_order_failure_no_mutation initState "cust_1" "rest_1" [] none 0
  have h1 : (place_order initState "cust_1" "rest_1" [] none 0).1 = none :=
    h.1.mpr (Or.inl rfl)
  exact ⟨h1, h.2 h1⟩

/-- C3 at a concrete input: the state after adding one agent. -/
theorem agent_busy_iff_current_order_witness :
    ("agent_1", wAgent) ∈ (run [Op.addAgent "Ann" "2" "bike"]).delivery_agents
    ∧ ((("agent_1", wAgent).2.status = "busy" ↔ ("agent_1", wAgent).2.current_order ≠ none)
       ∧ (("agent_1", wAgent).2.status = "available"
            ↔ ("agent_1", wAgent).2.current_order = none)) :=
  ⟨by decide,
   agent_busy_iff_current_order [Op.addAgent "Ann" "2" "bike"] ("agent_1", wAgent) (by decide)⟩

/-- C4 at a concrete input: a known order and the arbitrary status string
`"weird"`. -/
theorem update_order_status_unconditional_witness :
    dlookup wStDeliver.orders "order_1" = some wOrderAssigned
    ∧ ((update_order_status wStDeliver "order_1" "weird").orders
         = dset wStDeliver.orders "order_1" { wOrderAssigned with status := "weird" }
       ∧ ("weird" ≠ "delivered" →
           update_order_status wStDeliver "order_1" "weird"
             = save { wStDeliver with
                      orders := dset wStDeliver.orders "order_1"
                        { wOrderAssigned with status := "weird" } })) :=
  ⟨rfl, update_order_status_unconditional wStDeliver "order_1" "weird" wOrderAssigned rfl⟩

/-- C5 at a concrete input: one placed order, one available agent, draws
`choice = 0`, `dur = 0`, `now = 0`. -/
theorem assign_agent_success_effects_witness :
    dlookup wStAssign.orders "order_1" = some wOrder
    ∧ availableAgents wStAssign ≠ []
    ∧ ∃ ord',
        dlookup (assign_delivery_agent wStAssign "order_1" 0 0 0).orders "order_1" = some ord'
        ∧ ord'.delivery_agent = some (recoveredAgentId wStAssign (chosenAgent wStAssign 0))
        ∧ ord'.status = "assigned"
        ∧ ord'.estimated_delivery = some (0 + (15 + 0 % 31))
        ∧ 15 ≤ 15 + 0 % 31 ∧ 15 + 0 % 31 ≤ 45
        ∧ ∃ ag',
            dlookup (assign_delivery_agent wStAssign "order_1" 0 0 0).delivery_agents
              (recoveredAgentId wStAssign (chosenAgent wStAssign 0)) = some ag'
            ∧ ag'.status = "busy" ∧ ag'.current_order = some "order_1" :=
  ⟨rfl, by decide,
   assign_agent_success_effects wStAssign "order_1" 0 0 0 wOrder rfl (by decide)⟩

/-- C6 (amended) at a concrete input: the same state, where no agent is busy
on the order yet. -/
theorem assign_agent_unique_busy_witness :
    dlookup wStAssign.orders "order_1" = some wOrder
    ∧ availableAgents wStAssign ≠ []
    ∧ (∀ p ∈ wStAssign.delivery_agents,
        ¬(p.2.status = "busy" ∧ p.2.current_order = some "order_1"))
    ∧ busyWithCount (assign_delivery_agent wStAssign "order_1" 0 0 0) "order_1" = 1 :=
  ⟨rfl, by decide, by decide,
   assign_agent_unique_busy wStAssign "order_1" 0 0 0 wOrder rfl (by decide) (by decide)⟩

/-- C7 at a concrete input: an assigned order marked delivered. -/
theorem delivered_resets_agent_witness :
    dlookup wStDeliver.orders "order_1" = some wOrderAssigned
    ∧ wOrderAssigned.delivery_agent = some "agent_1"
    ∧ "agent_1" ≠ ""
    ∧ dlookup wStDeliver.delivery_agents "agent_1" = some wBusyAgent
    ∧ (dlookup (update_order_status wStDeliver "order_1" "delivered").delivery_agents "agent_1"
         = some { wBusyAgent with status := "available", current_order := none,
                                  total_deliveries := wBusyAgent.total_deliveries + 1 }
       ∧ ∀ k, k ≠ "agent_1" →
           dlookup (update_order_status wStDeliver "order_1" "delivered").delivery_agents k
             = dlookup wStDeliver.delivery_agents k) :=
  ⟨rfl, rfl, by decide, rfl,
   delivered_resets_agent wStDeliver "order_1" wOrderAssigned "agent_1" wBusyAgent
     rfl rfl (by decide) rfl⟩
